import Mathlib

set_option maxRecDepth 16384

/-!
Verification of the hitster-randomizer backend (src/server.py).

The MongoDB collections are modelled as lists of documents; `find_one`,
`update_one`, `delete_one` and `delete_many` are modelled by the corresponding
first-match list operations.  Wall-clock instants (`datetime.utcnow()`) are
passed in as explicit `Nat` parameters, and every remote HTTP interaction is
passed in as an explicit parameter describing the remote service's response,
so that each request handler becomes a pure function from the store, the
request arguments and the remote responses to the HTTP-level result and the
new store.
-/

/-- A document of the `sessions` collection.  Fields are those written by
`spotify_authorize` and `spotify_callback` in src/server.py: `state` is the
CSRF state (cleared to `None` after use), `is_active` flips to true on a
successful code exchange, and the three token fields hold the credential
bundle. -/
structure Session where
  _id : String
  state : Option String
  is_active : Bool
  spotify_access_token : Option String
  spotify_refresh_token : Option String
  token_expires_at : Option Nat
  playlist_theme : Option String
  tracks_played : List String
  created_at : Nat
deriving DecidableEq, Repr

/-- A document of the `tracks` collection, as inserted by `get_next_track`
and `play_next_song` in src/server.py. -/
structure TrackRecord where
  spotify_id : String
  title : String
  artist : String
  album : String
  release_year : Nat
  playlist_theme : String
  played_at : Nat
  session_id : String
  expires_at : Nat
deriving DecidableEq, Repr

/-- A document of the `playlists` collection. -/
structure PlaylistEntry where
  playlist_id : String
  name : String
  custom_icon : String
  expires_at : Nat
deriving DecidableEq, Repr

/-- The shared MongoDB store: the collections touched by the verified
request handlers. -/
structure Store where
  sessions : List Session
  tracks : List TrackRecord
  playlists : List PlaylistEntry
deriving DecidableEq, Repr

/-- Mongo `update_one`: apply `f` to the first document matching `p`,
leaving every other document unchanged (like the driver, it touches at most
one document). -/
def update_one : List Session → (Session → Bool) → (Session → Session) → List Session
  | [], _, _ => []
  | s :: rest, p, f => if p s then f s :: rest else s :: update_one rest p f

/-- A well-formed track object of the remote playlist-tracks response, with
the fields src/server.py reads from it: `id`, `name`, the first artist's
name (`artists[0].name`) and the album's name and release year
(`int(album.release_date.split('-')[0])`, already parsed here). -/
structure Track where
  id : String
  name : String
  artist : String
  album_name : String
  release_year : Nat
deriving DecidableEq, Repr

/-- A successful JSON body of the remote token endpoint.  `expires_in`
defaults to 3600 when absent (`data.get('expires_in', 3600)`).
`refresh_token` is the rotated refresh token the remote service may include
in a refresh-grant response; src/server.py's `refresh_token` never reads it. -/
structure TokenData where
  access_token : String
  refresh_token : Option String
  expires_in : Option Nat
deriving DecidableEq, Repr

/-- The HTTP-level outcomes of `spotify_callback`: a redirect carrying the
remote `error` parameter, the `invalid_state` redirect, the `auth_failed`
redirect, or the success redirect carrying the session id. -/
inductive CallbackResult where
  | redirectError (e : String)
  | invalidState
  | authFailed
  | success (session_id : String)
deriving DecidableEq, Repr

/-- The `$set` document `spotify_callback` applies to the matched session on
a successful code exchange: store the bundle, activate, clear the CSRF
state. -/
def callbackUpdate (data : TokenData) (rt : String) (now : Nat) (s : Session) : Session :=
  { s with
    spotify_access_token := some data.access_token,
    spotify_refresh_token := some rt,
    token_expires_at := some (now + data.expires_in.getD 3600),
    is_active := true,
    state := none }

/-- Embeds `spotify_callback` (src/server.py lines 155-202).  `exchange` is
the remote token endpoint's response to the authorization-code exchange
(`none` models a non-2xx status or network failure, which raises and is
caught by the handler's `except`).  On success the handler sets the bundle,
`is_active = True` and `state = None` on the matched session. -/
def spotify_callback (st : Store) (_code state : String) (error : Option String)
    (exchange : Option TokenData) (now : Nat) : CallbackResult × Store :=
  match error with
  | some e => (.redirectError e, st)
  | none =>
    match st.sessions.find? (fun s => s.state == some state && s.is_active == false) with
    | none => (.invalidState, st)
    | some sess =>
      match exchange with
      | none => (.authFailed, st)
      | some data =>
        match data.refresh_token with
        | none => (.authFailed, st)
        | some rt =>
          (.success sess._id,
           { st with sessions := update_one st.sessions (fun s => s._id == sess._id)
                       (callbackUpdate data rt now) })

/-- The `$set` document `refresh_token` applies on a successful refresh:
only the access token and the expiry — the stored refresh token is not
touched. -/
def refreshUpdate (data : TokenData) (now : Nat) (s : Session) : Session :=
  { s with
    spotify_access_token := some data.access_token,
    token_expires_at := some (now + data.expires_in.getD 3600) }

/-- Embeds `refresh_token` (src/server.py lines 300-332).  `resp` is the
remote token endpoint's response to the refresh grant (`none` models failure:
`raise_for_status` or a network error, caught by the `except`, which returns
`False` without touching the store).  On success the handler `$set`s only
`spotify_access_token` and `token_expires_at`: the stored
`spotify_refresh_token` is never updated, even when `resp` carries a rotated
`refresh_token`. -/
def refresh_token (st : Store) (session_id : String) (resp : Option TokenData)
    (now : Nat) : Bool × Store :=
  match st.sessions.find? (fun s => s._id == session_id) with
  | none => (false, st)
  | some sess =>
    if sess.spotify_refresh_token.isNone then (false, st)
    else
      match resp with
      | none => (false, st)
      | some data =>
        (true,
         { st with sessions := update_one st.sessions (fun s => s._id == session_id)
                     (refreshUpdate data now) })

/-- The outcome of one attempt of the playlist-tracks fetch inside
`get_playlist_tracks`: a 2xx body with its (well-formed) track items, a 401
HTTP error, another HTTP error, or a non-HTTP exception. -/
inductive FetchOutcome where
  | ok (ts : List Track)
  | http401
  | httpErr
  | netErr
deriving DecidableEq, Repr

/-- Embeds `get_playlist_tracks` (src/server.py lines 256-298).  On a 401
the source calls `refresh_token` and then *recurses into itself with no
bound*, so each recursive attempt consumes one entry of `attempts` — the
remote outcome of that attempt's fetch together with the refresh response
and clock used if that attempt 401s.  An exhausted `attempts` list models
the recursion still going on past the supplied outcomes and yields `none`.
Returns the track list (or `none`), the number of `refresh_token`
invocations performed, and the store (mutated only by refreshes). -/
def get_playlist_tracks (st : Store) (playlist_id session_id : String) :
    List (FetchOutcome × Option TokenData × Nat) → Option (List Track) × Nat × Store
  | [] => (none, 0, st)
  | (o, rr, now) :: rest =>
    match st.sessions.find? (fun s => s._id == session_id) with
    | none => (none, 0, st)
    | some sess =>
      if sess.spotify_access_token.isNone then (none, 0, st)
      else
        match o with
        | .ok ts => (some ts, 0, st)
        | .http401 =>
          let st1 := (refresh_token st session_id rr now).2
          let r := get_playlist_tracks st1 playlist_id session_id rest
          (r.1, r.2.1 + 1, r.2.2)
        | .httpErr => (none, 0, st)
        | .netErr => (none, 0, st)

/-- A remote call made while attempting playback, in order: the
active-devices listing, the play command itself, or a token refresh. -/
inductive RemoteOp where
  | deviceList
  | playAttempt
  | refreshCall
deriving DecidableEq, Repr

/-- Embeds `play_track` (src/server.py lines 339-378).  `devices` is the
device list decoded from the devices endpoint (a 204 devices response and an
empty `devices` array both yield the no-devices error), `playStatus` and
`playBody` the status and body of the play command's response.  The third
component records every remote call the function performs: the source
issues at most one devices call and one play command — it contains no
refresh and no retry on any play failure, 401 included. -/
def play_track (st : Store) (_track_id session_id : String) (devices : List String)
    (playStatus : Nat) (playBody : String) : Bool × Option String × List RemoteOp :=
  match st.sessions.find? (fun s => s._id == session_id) with
  | none => (false, some "No active session or access token", [])
  | some sess =>
    if sess.spotify_access_token.isNone then
      (false, some "No active session or access token", [])
    else if devices.isEmpty then
      (false, some "No active devices found. Open Spotify on a device.", [.deviceList])
    else if playStatus == 204 then
      (true, none, [.deviceList, .playAttempt])
    else
      (false, some playBody, [.deviceList, .playAttempt])

/-- Embeds `get_original_release_year` (src/server.py lines 334-337): the
placeholder returns the Spotify year unchanged. -/
def get_original_release_year (_track_name _artist_name _album_name : String)
    (spotify_year : Nat) : Nat :=
  spotify_year

/-- The `$set` document updating the session's `playlist_theme`, applied by
`get_next_track` and `play_next_song` before the fetch. -/
def setTheme (playlist_id : String) (s : Session) : Session :=
  { s with playlist_theme := some playlist_id }

/-- The `$push` document appending a track id to the session's
`tracks_played`. -/
def pushTrack (track_id : String) (s : Session) : Session :=
  { s with tracks_played := s.tracks_played ++ [track_id] }

/-- The JSON-level outcomes of `get_next_track`. -/
inductive NextTrackResult where
  | errNoSession
  | errNoTracks
  | ok (rec : TrackRecord)
deriving DecidableEq, Repr

/-- Embeds `get_next_track` (src/server.py lines 383-453).  `fetched` is the
result of `get_playlist_tracks` (`none` = unreachable playlist), `choice`
resolves `random.choice` by index into the fetched list, `now` the clock.
The handler (1) sets `playlist_theme` on the session *before* fetching,
(2) on an empty or failed fetch returns the no-tracks error with the theme
already updated, (3) otherwise inserts a `TrackRecord` with a 2-hour expiry
and `$push`es the chosen track's id onto `tracks_played`. -/
def get_next_track (st : Store) (session_id playlist_id : String)
    (fetched : Option (List Track)) (choice now : Nat) : NextTrackResult × Store :=
  match st.sessions.find? (fun s => s._id == session_id) with
  | none => (.errNoSession, st)
  | some _ =>
    let st1 : Store :=
      { st with sessions := update_one st.sessions (fun s => s._id == session_id)
                  (setTheme playlist_id) }
    match fetched with
    | none => (.errNoTracks, st1)
    | some [] => (.errNoTracks, st1)
    | some (t :: ts) =>
      let random_track := (t :: ts).getD (choice % (t :: ts).length) t
      let original_year := get_original_release_year random_track.name random_track.artist
        random_track.album_name random_track.release_year
      let record : TrackRecord :=
        { spotify_id := random_track.id
          title := random_track.name
          artist := random_track.artist
          album := random_track.album_name
          release_year := original_year
          playlist_theme := playlist_id
          played_at := now
          session_id := session_id
          expires_at := now + 2 * 3600 }
      let st2 : Store := { st1 with tracks := st1.tracks ++ [record] }
      let st3 : Store :=
        { st2 with sessions := update_one st2.sessions (fun s => s._id == session_id)
                     (pushTrack random_track.id) }
      (.ok record, st3)

/-- The JSON-level outcomes of `play_next_song`. -/
inductive PlayNextResult where
  | errNoSession
  | errNoTracks
  | errPlay (e : Option String)
  | ok (rec : TrackRecord)
deriving DecidableEq, Repr

/-- Embeds `play_next_song` (src/server.py lines 573-630).  Same selection
pipeline as `get_next_track` (theme set before the fetch), then `play_track`
with the given devices/play-response parameters; only on a successful play
command does it insert the `TrackRecord` and `$push` onto `tracks_played`.
On play failure it returns the error directly: there is no refresh and no
retry.  The last component is the list of remote calls `play_track` made. -/
def play_next_song (st : Store) (session_id playlist_id : String)
    (fetched : Option (List Track)) (choice : Nat) (devices : List String)
    (playStatus : Nat) (playBody : String) (now : Nat) :
    PlayNextResult × Store × List RemoteOp :=
  match st.sessions.find? (fun s => s._id == session_id) with
  | none => (.errNoSession, st, [])
  | some _ =>
    let st1 : Store :=
      { st with sessions := update_one st.sessions (fun s => s._id == session_id)
                  (setTheme playlist_id) }
    match fetched with
    | none => (.errNoTracks, st1, [])
    | some [] => (.errNoTracks, st1, [])
    | some (t :: ts) =>
      let random_track := (t :: ts).getD (choice % (t :: ts).length) t
      let pr := play_track st1 random_track.id session_id devices playStatus playBody
      if pr.1 then
        let original_year := get_original_release_year random_track.name random_track.artist
          random_track.album_name random_track.release_year
        let record : TrackRecord :=
          { spotify_id := random_track.id
            title := random_track.name
            artist := random_track.artist
            album := random_track.album_name
            release_year := original_year
            playlist_theme := playlist_id
            played_at := now
            session_id := session_id
            expires_at := now + 2 * 3600 }
        let st2 : Store := { st1 with tracks := st1.tracks ++ [record] }
        let st3 : Store :=
          { st2 with sessions := update_one st2.sessions (fun s => s._id == session_id)
                       (pushTrack random_track.id) }
        (.ok record, st3, pr.2.2)
      else
        (.errPlay pr.2.1, st1, pr.2.2)

/-- The `$set` document `reset_game` applies to the session: empty play
history, no playlist theme. -/
def clearSession (s : Session) : Session :=
  { s with tracks_played := ([] : List String), playlist_theme := (none : Option String) }

/-- The JSON-level outcomes of `reset_game`. -/
inductive ResetResult where
  | errNoSession
  | okReset
deriving DecidableEq, Repr

/-- Embeds `reset_game` (src/server.py lines 632-652): `$set`s
`tracks_played = []` and `playlist_theme = None` on the session and
`delete_many`s the session's documents from the `tracks` collection. -/
def reset_game (st : Store) (session_id : String) : ResetResult × Store :=
  match st.sessions.find? (fun s => s._id == session_id) with
  | none => (.errNoSession, st)
  | some _ =>
    let st1 : Store :=
      { st with sessions := update_one st.sessions (fun s => s._id == session_id) clearSession }
    let st2 : Store :=
      { st1 with tracks := st1.tracks.filter (fun t => !(t.session_id == session_id)) }
    (.okReset, st2)

/-- Modelled from the spec: `parse_playlist_url` is called by `add_playlist`
(src/server.py line 220) but defined nowhere in the repository's sources.
Per the spec it "parses a remote-service playlist URL into a playlist id"
and rejects malformed input; modelled as extracting the nonempty id segment
of an `https://open.spotify.com/playlist/<id>` URL. -/
def parse_playlist_url (url : String) : Option String :=
  let pre := "https://open.spotify.com/playlist/"
  if url.data.take pre.data.length == pre.data then
    let rest := (url.data.drop pre.data.length).takeWhile (fun c => c != '?')
    if rest.isEmpty then none else some (String.mk rest)
  else none

/-- Modelled from the spec: `get_playlist_metadata` is called by
`add_playlist` (src/server.py line 224) but defined nowhere in the
repository's sources.  Per the spec it fetches the playlist's name and icon
from the remote service; `remote` is the remote response (`none` = fetch
failure).  Mirrors the source's `(name, custom_icon, error)` triple as an
`Except`. -/
def get_playlist_metadata (remote : Option (String × String)) :
    Except String (String × String) :=
  match remote with
  | some r => .ok r
  | none => .error "Failed to fetch playlist metadata"

/-- The JSON-level outcomes of `add_playlist`. -/
inductive AddPlaylistResult where
  | errNoSessionId
  | errNoSession
  | errNoUrl
  | errInvalidUrl
  | errMetadata (e : String)
  | ok (id name custom_icon : String)
deriving DecidableEq, Repr

/-- Embeds `add_playlist` (src/server.py lines 204-232), with the two
missing helpers modelled from the spec.  After a successful parse and
metadata fetch the handler only *logs* "Added playlist ... to playlists
collection" and returns the triple: no document is ever inserted into the
`playlists` collection, so the store is returned unchanged on every path. -/
def add_playlist (st : Store) (session_id : Option String) (url : Option String)
    (remote : Option (String × String)) : AddPlaylistResult × Store :=
  match session_id with
  | none => (.errNoSessionId, st)
  | some sid =>
    match st.sessions.find? (fun s => s._id == sid) with
    | none => (.errNoSession, st)
    | some _ =>
      match url with
      | none => (.errNoUrl, st)
      | some u =>
        match parse_playlist_url u with
        | none => (.errInvalidUrl, st)
        | some pid =>
          match get_playlist_metadata remote with
          | .error e => (.errMetadata e, st)
          | .ok (name, custom_icon) => (.ok pid name custom_icon, st)

/-- Thread-local state of one in-progress execution of `refresh_token`,
split at its suspension points (the network calls): `pc = 0` before the
`find_one`, `1` after the read, `2` after the remote refresh call has been
issued (response held, update not yet written), `3` finished.  `sess` is
the session document captured by the read. -/
structure RefreshThread where
  pc : Nat
  sess : Option Session
deriving DecidableEq, Repr

/-- One atomic step of a `refresh_token` execution against the shared
store: read (find_one plus the refresh-token guard), remote call, write
(the `update_one`).  The source has no lock, mutex or compare-and-set, so
each step acts on whatever store state it finds.  Returns the store, the
thread state and how many remote refresh calls this step issued. -/
def refreshStep (st : Store) (t : RefreshThread) (session_id : String)
    (resp : TokenData) (now : Nat) : Store × RefreshThread × Nat :=
  if t.pc == 0 then
    match st.sessions.find? (fun s => s._id == session_id) with
    | none => (st, { t with pc := 3 }, 0)
    | some sess =>
      if sess.spotify_refresh_token.isNone then (st, { t with pc := 3 }, 0)
      else (st, { pc := 1, sess := some sess }, 0)
  else if t.pc == 1 then
    (st, { t with pc := 2 }, 1)
  else if t.pc == 2 then
    ({ st with sessions := update_one st.sessions (fun s => s._id == session_id)
                 (refreshUpdate resp now) },
     { t with pc := 3 }, 0)
  else
    (st, t, 0)

/-- Runs two concurrent `refresh_token` executions for the same session id
under an explicit interleaving: `true` schedules thread 1 (refresh response
`r1`, clock `n1`), `false` thread 2.  Returns the final store and thread
states, the total number of remote refresh calls issued, and whether at any
point both threads simultaneously had a refresh call issued but not yet
written back (two refreshes in flight at once). -/
def runRefresh (st : Store) (t1 t2 : RefreshThread) (session_id : String)
    (r1 r2 : TokenData) (n1 n2 : Nat) :
    List Bool → Store × RefreshThread × RefreshThread × Nat × Bool
  | [] => (st, t1, t2, 0, false)
  | b :: sched =>
    let step :=
      if b then
        let r := refreshStep st t1 session_id r1 n1
        (r.1, r.2.1, t2, r.2.2)
      else
        let r := refreshStep st t2 session_id r2 n2
        (r.1, t1, r.2.1, r.2.2)
    let ov := step.2.1.pc == 2 && step.2.2.1.pc == 2
    let rest := runRefresh step.1 step.2.1 step.2.2.1 session_id r1 r2 n1 n2 sched
    (rest.1, rest.2.1, rest.2.2.1, step.2.2.2 + rest.2.2.2.1, ov || rest.2.2.2.2)

/-! ### Helper lemmas about the store primitives -/

/-- A successful `find?` splits the list at the first match. -/
theorem find?_decomp {α : Type} (l : List α) (p : α → Bool) (x : α)
    (h : l.find? p = some x) :
    ∃ l1 l2, l = l1 ++ x :: l2 ∧ ∀ y ∈ l1, p y = false := by
  induction l with
  | nil => simp [List.find?] at h
  | cons a l ih =>
    by_cases hp : p a = true
    · rw [List.find?_cons_of_pos _ hp] at h
      exact ⟨[], l, by simp [(Option.some_inj.mp h).symm], by simp⟩
    · rw [List.find?_cons_of_neg _ hp] at h
      obtain ⟨l1, l2, heq, hall⟩ := ih h
      refine ⟨a :: l1, l2, by simp [heq], ?_⟩
      intro y hy
      rcases List.mem_cons.mp hy with rfl | hy
      · simpa using hp
      · exact hall y hy

/-- `update_one` on a list split at the first match rewrites exactly that
element. -/
theorem update_one_append (l1 : List Session) (x : Session) (l2 : List Session)
    (p : Session → Bool) (f : Session → Session)
    (h1 : ∀ y ∈ l1, p y = false) (hx : p x = true) :
    update_one (l1 ++ x :: l2) p f = l1 ++ f x :: l2 := by
  induction l1 with
  | nil => simp [update_one, hx]
  | cons a l1 ih =>
    have ha : p a = false := h1 a (List.mem_cons_self a l1)
    simp only [List.cons_append, update_one, ha]
    simp only [Bool.false_eq_true, if_false, List.cons.injEq, true_and]
    exact ih (fun y hy => h1 y (List.mem_cons_of_mem a hy))

/-- After `update_one`, `find?` with the same predicate returns the updated
document, provided the update preserves the predicate. -/
theorem find?_update_one (l : List Session) (p : Session → Bool)
    (f : Session → Session) (x : Session)
    (hfind : l.find? p = some x) (hpf : p (f x) = true) :
    (update_one l p f).find? p = some (f x) := by
  induction l with
  | nil => simp [List.find?] at hfind
  | cons a l ih =>
    by_cases hp : p a = true
    · rw [List.find?_cons_of_pos _ hp] at hfind
      have hax : a = x := Option.some_inj.mp hfind
      subst hax
      simp [update_one, hp, List.find?_cons_of_pos _ hpf]
    · rw [List.find?_cons_of_neg _ hp] at hfind
      have : update_one (a :: l) p f = a :: update_one l p f := by
        simp [update_one, hp]
      rw [this, List.find?_cons_of_neg _ hp]
      exact ih hfind

/-- `update_one` leaves any projection alone that the update does not
touch. -/
theorem map_update_one {α : Type} (l : List Session) (p : Session → Bool)
    (f : Session → Session) (g : Session → α) (h : ∀ s, g (f s) = g s) :
    (update_one l p f).map g = l.map g := by
  induction l with
  | nil => rfl
  | cons a l ih =>
    by_cases hp : p a = true
    · simp [update_one, hp, h]
    · simp only [update_one, hp, Bool.false_eq_true, if_false, List.map_cons]
      rw [ih]

/-- `update_one` is idempotent when the update is and preserves the
predicate. -/
theorem update_one_idem (l : List Session) (p : Session → Bool)
    (f : Session → Session) (hp : ∀ s, p (f s) = p s) (hf : ∀ s, f (f s) = f s) :
    update_one (update_one l p f) p f = update_one l p f := by
  induction l with
  | nil => rfl
  | cons a l ih =>
    by_cases hpa : p a = true
    · simp [update_one, hpa, hp, hf]
    · simp only [update_one, hpa, Bool.false_eq_true, if_false]
      exact congrArg _ ih

/-- An element looked up with a default that is itself a member stays in the
list. -/
theorem cons_getD_mem (t : Track) (ts : List Track) (n : Nat) :
    (t :: ts).getD n t ∈ t :: ts := by
  by_cases h : n < (t :: ts).length
  · rw [List.getD_eq_getElem _ _ h]
    exact List.getElem_mem h
  · rw [List.getD_eq_default _ _ (by omega)]
    exact List.mem_cons_self t ts

/-! ### Claims -/

/-- C1: a CSRF state value is accepted by the callback at most once.  Under
the store invariants maintained by `spotify_authorize` and the unique
partial index (at most one session holds a given non-null `state`, `_id`s
are distinct), a callback with state `s` that finds a pending session and
succeeds at the code exchange activates that session, stores the bundle and
nulls its `state`; afterwards no pending session with state `s` exists and
any second callback presenting `s` returns the `invalid_state` redirect. -/
theorem spotify_callback_state_single_use
    (st : Store) (code s : String) (data : TokenData) (rt : String) (now : Nat)
    (hrt : data.refresh_token = some rt)
    (huniq : (st.sessions.filter (fun t => t.state == some s)).length ≤ 1)
    (hids : (st.sessions.map Session._id).Nodup)
    (hfound : (st.sessions.find?
        (fun t => t.state == some s && t.is_active == false)).isSome) :
    (∃ sid, (spotify_callback st code s none (some data) now).1
        = CallbackResult.success sid) ∧
    (∃ t ∈ (spotify_callback st code s none (some data) now).2.sessions,
        t.is_active = true ∧ t.state = none ∧
        t.spotify_access_token = some data.access_token ∧
        t.spotify_refresh_token = some rt ∧
        t.token_expires_at = some (now + data.expires_in.getD 3600)) ∧
    ((spotify_callback st code s none (some data) now).2.sessions.find?
        (fun t => t.state == some s && t.is_active == false) = none) ∧
    (∀ code2 ex2 now2,
      (spotify_callback (spotify_callback st code s none (some data) now).2
          code2 s none ex2 now2).1 = CallbackResult.invalidState) := by
  obtain ⟨sess, hfind⟩ := Option.isSome_iff_exists.mp hfound
  have hpsess := List.find?_some hfind
  simp only [Bool.and_eq_true, beq_iff_eq] at hpsess
  obtain ⟨l1, l2, heq, hl1⟩ := find?_decomp _ _ _ hfind
  -- the unique partial index: nothing besides `sess` holds state `s`
  have hnos : ∀ y, y ∈ l1 ∨ y ∈ l2 → y.state ≠ some s := by
    intro y hy hstate
    have hmem : sess ∈ st.sessions := List.mem_of_find?_eq_some hfind
    have h1 : st.sessions.filter (fun t => t.state == some s)
        = (l1.filter (fun t => t.state == some s)) ++ sess ::
          (l2.filter (fun t => t.state == some s)) := by
      rw [heq, List.filter_append, List.filter_cons_of_pos (by simp [hpsess.1])]
    have hlen : (l1.filter (fun t => t.state == some s)).length
        + (l2.filter (fun t => t.state == some s)).length + 1 ≤ 1 := by
      have := huniq
      rw [h1] at this
      simp [List.length_append] at this
      omega
    have hy' : y ∈ l1.filter (fun t => t.state == some s)
        ∨ y ∈ l2.filter (fun t => t.state == some s) := by
      rcases hy with hy | hy
      · exact Or.inl (List.mem_filter.mpr ⟨hy, by simp [hstate]⟩)
      · exact Or.inr (List.mem_filter.mpr ⟨hy, by simp [hstate]⟩)
    rcases hy' with hy' | hy'
    · have hpos := List.length_pos_of_mem hy'
      omega
    · have hpos := List.length_pos_of_mem hy'
      omega
  -- distinct `_id`s: the update hits exactly the found session
  have hidl1 : ∀ y ∈ l1, (y._id == sess._id) = false := by
    intro y hy
    have : (l1.map Session._id ++ sess._id :: l2.map Session._id).Nodup := by
      have := hids
      rw [heq] at this
      simpa using this
    have hnot := (List.nodup_append.mp this).2.2
    simp only [beq_eq_false_iff_ne, ne_eq]
    intro hcontra
    exact hnot (List.mem_map_of_mem _ hy) (by simp [hcontra])
  have hupd : update_one st.sessions (fun t => t._id == sess._id)
      (callbackUpdate data rt now) = l1 ++ callbackUpdate data rt now sess :: l2 := by
    rw [heq]
    exact update_one_append _ _ _ _ _ hidl1 (by simp)
  have hrun : spotify_callback st code s none (some data) now
      = (CallbackResult.success sess._id,
         { st with sessions := l1 ++ callbackUpdate data rt now sess :: l2 }) := by
    simp only [spotify_callback, hfind, hrt, hupd]
  have hfindnone : (l1 ++ callbackUpdate data rt now sess :: l2).find?
      (fun t => t.state == some s && t.is_active == false) = none := by
    rw [List.find?_eq_none]
    intro x hx
    simp only [Bool.and_eq_true, beq_iff_eq]
    rintro ⟨hs, -⟩
    rcases List.mem_append.mp hx with h1 | h1
    · exact hnos x (Or.inl h1) hs
    · rcases List.mem_cons.mp h1 with rfl | h1
      · simp [callbackUpdate] at hs
      · exact hnos x (Or.inr h1) hs
  refine ⟨⟨sess._id, by rw [hrun]⟩, ?_, ?_, ?_⟩
  · refine ⟨callbackUpdate data rt now sess, ?_, ?_⟩
    · rw [hrun]
      exact List.mem_append.mpr (Or.inr (List.mem_cons_self _ _))
    · simp [callbackUpdate]
  · rw [hrun]
    exact hfindnone
  · intro code2 ex2 now2
    rw [hrun]
    simp only [spotify_callback, hfindnone]

/-- C1 witness: on a store with one pending session whose state is "111", a
successful callback followed by a replay of the same state hits the
`invalid_state` redirect. -/
theorem spotify_callback_state_single_use_witness :
    (spotify_callback (spotify_callback
        ⟨[⟨"id1", some "111", false, none, none, none, none, [], 0⟩], [], []⟩
        "c" "111" none (some ⟨"at1", some "rt1", some 3600⟩) 10).2
      "c2" "111" none (some ⟨"at2", some "rt2", some 3600⟩) 50).1
    = CallbackResult.invalidState :=
  (spotify_callback_state_single_use
    ⟨[⟨"id1", some "111", false, none, none, none, none, [], 0⟩], [], []⟩
    "c" "111" ⟨"at1", some "rt1", some 3600⟩ "rt1" 10 rfl (by decide) (by decide)
    (by decide)).2.2.2 "c2" (some ⟨"at2", some "rt2", some 3600⟩) 50

/-- Helper: a failed remote refresh leaves the store untouched and returns
`False`, on every path of `refresh_token`. -/
theorem refresh_token_none (st : Store) (sid : String) (now : Nat) :
    refresh_token st sid none now = (false, st) := by
  simp only [refresh_token]
  cases st.sessions.find? (fun s => s._id == sid) with
  | none => rfl
  | some sess => cases h : sess.spotify_refresh_token.isNone <;> simp [h]

/-- C2 counterexample: the remote refresh response carries a rotated refresh
token "rt2", the refresh succeeds, yet the stored refresh token is still the
old "rt1" — the rotated token is discarded, not stored. -/
theorem refresh_token_discards_rotated_token :
    ((refresh_token
        ⟨[⟨"id1", none, true, some "old", some "rt1", some 5, none, [], 0⟩], [], []⟩
        "id1" (some ⟨"new", some "rt2", some 3600⟩) 10).1 = true) ∧
    ((refresh_token
        ⟨[⟨"id1", none, true, some "old", some "rt1", some 5, none, [], 0⟩], [], []⟩
        "id1" (some ⟨"new", some "rt2", some 3600⟩) 10).2.sessions.map
        Session.spotify_refresh_token = [some "rt1"]) ∧
    ("rt1" : String) ≠ "rt2" := by
  refine ⟨rfl, rfl, by decide⟩

/-- C2 (amended): a successful refresh persists the new access token and the
new expiry `now + expires_in` (strictly later than an expiry already in the
past), and subsequent reads of the session return the new access token, not
the old one; however the stored refresh token is always left unchanged — a
rotated refresh token in the response is discarded. -/
theorem refresh_token_persists_access_and_expiry
    (st : Store) (sid : String) (data : TokenData) (now : Nat) (sess : Session)
    (hfind : st.sessions.find? (fun s => s._id == sid) = some sess)
    (hrt : sess.spotify_refresh_token.isSome) :
    (refresh_token st sid (some data) now).1 = true ∧
    ∃ sess', (refresh_token st sid (some data) now).2.sessions.find?
        (fun s => s._id == sid) = some sess' ∧
      sess'.spotify_access_token = some data.access_token ∧
      sess'.token_expires_at = some (now + data.expires_in.getD 3600) ∧
      sess'.spotify_refresh_token = sess.spotify_refresh_token ∧
      (∀ e, sess.token_expires_at = some e → e < now →
        e < now + data.expires_in.getD 3600) ∧
      (∀ old, sess.spotify_access_token = some old → old ≠ data.access_token →
        sess'.spotify_access_token ≠ some old) := by
  have hnone : sess.spotify_refresh_token.isNone = false := by
    cases h : sess.spotify_refresh_token with
    | none => rw [h] at hrt; simp at hrt
    | some v => rfl
  have hrun : refresh_token st sid (some data) now
      = (true, { st with sessions := update_one st.sessions (fun s => s._id == sid)
                           (refreshUpdate data now) }) := by
    simp only [refresh_token, hfind, hnone, Bool.false_eq_true, if_false]
  have hpres : (fun s => s._id == sid) (refreshUpdate data now sess) = true := by
    simpa [refreshUpdate] using List.find?_some hfind
  refine ⟨by rw [hrun], refreshUpdate data now sess, ?_, rfl, rfl, rfl, ?_, ?_⟩
  · rw [hrun]
    exact find?_update_one _ _ _ _ hfind hpres
  · intro e _ he
    omega
  · intro old _ hne
    simp [refreshUpdate]
    exact fun h => hne h.symm

/-- C2 witness: concrete expired session; the refresh succeeds, the stored
access token and expiry advance to the new values, the refresh token is
preserved. -/
theorem refresh_token_persists_access_and_expiry_witness :
    (refresh_token
        ⟨[⟨"id1", none, true, some "old", some "rt1", some 5, none, [], 0⟩], [], []⟩
        "id1" (some ⟨"new", some "rt2", some 3600⟩) 10).1 = true ∧
    ∃ sess', (refresh_token
        ⟨[⟨"id1", none, true, some "old", some "rt1", some 5, none, [], 0⟩], [], []⟩
        "id1" (some ⟨"new", some "rt2", some 3600⟩) 10).2.sessions.find?
        (fun s => s._id == "id1") = some sess' ∧
      sess'.spotify_access_token = some ("new" : String) ∧
      sess'.token_expires_at = some (10 + (some 3600 : Option Nat).getD 3600) ∧
      sess'.spotify_refresh_token
        = (⟨"id1", none, true, some "old", some "rt1", some 5, none, [], 0⟩
            : Session).spotify_refresh_token ∧
      (∀ e, (⟨"id1", none, true, some "old", some "rt1", some 5, none, [], 0⟩
          : Session).token_expires_at = some e → e < 10 →
        e < 10 + (some 3600 : Option Nat).getD 3600) ∧
      (∀ old, (⟨"id1", none, true, some "old", some "rt1", some 5, none, [], 0⟩
          : Session).spotify_access_token = some old → old ≠ "new" →
        sess'.spotify_access_token ≠ some old) :=
  refresh_token_persists_access_and_expiry
    ⟨[⟨"id1", none, true, some "old", some "rt1", some 5, none, [], 0⟩], [], []⟩
    "id1" ⟨"new", some "rt2", some 3600⟩ 10
    ⟨"id1", none, true, some "old", some "rt1", some 5, none, [], 0⟩ rfl (by decide)

/-- C5: when the remote refresh call fails, `refresh_token` returns `False`
and the store — in particular the session's whole credential bundle — is
exactly what it was; the session is neither deleted nor modified. -/
theorem refresh_token_failure_preserves_store (st : Store) (sid : String) (now : Nat) :
    refresh_token st sid none now = (false, st) :=
  refresh_token_none st sid now

/-- C3 counterexample: the remote play command answers 401, yet
`play_next_song` performs zero token refreshes and exactly one play attempt
— there is no forced refresh and no retry of the play command; the 401 is
reported directly as the playback failure. -/
theorem play_track_401_no_refresh_no_retry :
    ((play_next_song
        ⟨[⟨"id1", none, true, some "tok", some "rt1", some 5, none, [], 0⟩], [], []⟩
        "id1" "pl" (some [⟨"A", "a", "ar", "al", 1999⟩]) 0 ["dev"] 401 "Unauthorized" 100).1
      = PlayNextResult.errPlay (some "Unauthorized")) ∧
    ((play_next_song
        ⟨[⟨"id1", none, true, some "tok", some "rt1", some 5, none, [], 0⟩], [], []⟩
        "id1" "pl" (some [⟨"A", "a", "ar", "al", 1999⟩]) 0 ["dev"] 401 "Unauthorized" 100).2.2.count
        RemoteOp.refreshCall = 0) ∧
    ((play_next_song
        ⟨[⟨"id1", none, true, some "tok", some "rt1", some 5, none, [], 0⟩], [], []⟩
        "id1" "pl" (some [⟨"A", "a", "ar", "al", 1999⟩]) 0 ["dev"] 401 "Unauthorized" 100).2.2.count
        RemoteOp.playAttempt = 1) := by
  refine ⟨rfl, rfl, rfl⟩

/-- C3 (amended): on a non-204 (e.g. 401) response to the remote play
command, `play_next_song` reports the failure directly, with exactly one
play attempt and zero refreshes — no forced refresh, no retry.  The only
401-triggered refresh-retry lives in the playlist fetch:
`get_playlist_tracks` refreshes and retries on *every* 401, with no bound —
two consecutive 401s already cause two refreshes. -/
theorem play_next_song_401_terminal_fetch_retries_unbounded
    (st : Store) (sid pid pid2 body : String) (t : Track) (ts : List Track)
    (choice now ps : Nat) (devices : List String) (sess : Session)
    (hfind : st.sessions.find? (fun s => s._id == sid) = some sess)
    (haccess : sess.spotify_access_token.isSome)
    (hdev : devices.isEmpty = false)
    (hps : (ps == 204) = false) :
    ((play_next_song st sid pid (some (t :: ts)) choice devices ps body now).1
      = PlayNextResult.errPlay (some body)) ∧
    ((play_next_song st sid pid (some (t :: ts)) choice devices ps body now).2.2
      = [RemoteOp.deviceList, RemoteOp.playAttempt]) ∧
    ((play_next_song st sid pid (some (t :: ts)) choice devices ps body now).2.2.count
      RemoteOp.refreshCall = 0) ∧
    (∀ ts2 nr n1 n2 n3,
      get_playlist_tracks st pid2 sid
        [(FetchOutcome.http401, none, n1), (FetchOutcome.http401, none, n2),
         (FetchOutcome.ok ts2, nr, n3)]
      = (some ts2, 2, st)) := by
  have hnoneacc : sess.spotify_access_token.isNone = false := by
    cases h : sess.spotify_access_token with
    | none => rw [h] at haccess; simp at haccess
    | some v => rfl
  have hpres : (fun s => s._id == sid) (setTheme pid sess) = true := by
    simpa [setTheme] using List.find?_some hfind
  have hfind1 : (update_one st.sessions (fun s => s._id == sid)
      (setTheme pid)).find? (fun s => s._id == sid) = some (setTheme pid sess) :=
    find?_update_one _ _ _ _ hfind hpres
  have hplay : ∀ tid, play_track
      { st with sessions := update_one st.sessions (fun s => s._id == sid) (setTheme pid) }
      tid sid devices ps body
      = (false, some body, [RemoteOp.deviceList, RemoteOp.playAttempt]) := by
    intro tid
    simp only [play_track, hfind1, setTheme, hnoneacc, Bool.false_eq_true, if_false,
      hdev, hps]
  have hmain : play_next_song st sid pid (some (t :: ts)) choice devices ps body now
      = (PlayNextResult.errPlay (some body),
         { st with sessions := update_one st.sessions (fun s => s._id == sid) (setTheme pid) },
         [RemoteOp.deviceList, RemoteOp.playAttempt]) := by
    simp only [play_next_song, hfind, hplay, Bool.false_eq_true, if_false]
  refine ⟨by rw [hmain], by rw [hmain], by rw [hmain]; rfl, ?_⟩
  intro ts2 nr n1 n2 n3
  simp only [get_playlist_tracks, hfind, hnoneacc, Bool.false_eq_true, if_false,
    refresh_token_none]

/-- C3 witness: concrete session, one device, play command answering 401. -/
theorem play_next_song_401_terminal_fetch_retries_unbounded_witness :
    ((play_next_song
        ⟨[⟨"id1", none, true, some "tok", some "rt1", some 5, none, [], 0⟩], [], []⟩
        "id1" "pl" (some [⟨"A", "a", "ar", "al", 1999⟩]) 0 ["dev"] 401 "NoAuth" 100).1
      = PlayNextResult.errPlay (some "NoAuth")) ∧
    ((play_next_song
        ⟨[⟨"id1", none, true, some "tok", some "rt1", some 5, none, [], 0⟩], [], []⟩
        "id1" "pl" (some [⟨"A", "a", "ar", "al", 1999⟩]) 0 ["dev"] 401 "NoAuth" 100).2.2
      = [RemoteOp.deviceList, RemoteOp.playAttempt]) ∧
    ((play_next_song
        ⟨[⟨"id1", none, true, some "tok", some "rt1", some 5, none, [], 0⟩], [], []⟩
        "id1" "pl" (some [⟨"A", "a", "ar", "al", 1999⟩]) 0 ["dev"] 401 "NoAuth" 100).2.2.count
      RemoteOp.refreshCall = 0) ∧
    (∀ ts2 nr n1 n2 n3,
      get_playlist_tracks
        ⟨[⟨"id1", none, true, some "tok", some "rt1", some 5, none, [], 0⟩], [], []⟩
        "plb" "id1"
        [(FetchOutcome.http401, none, n1), (FetchOutcome.http401, none, n2),
         (FetchOutcome.ok ts2, nr, n3)]
      = (some ts2, 2,
         ⟨[⟨"id1", none, true, some "tok", some "rt1", some 5, none, [], 0⟩], [], []⟩)) :=
  play_next_song_401_terminal_fetch_retries_unbounded
    ⟨[⟨"id1", none, true, some "tok", some "rt1", some 5, none, [], 0⟩], [], []⟩
    "id1" "pl" "plb" "NoAuth" ⟨"A", "a", "ar", "al", 1999⟩ [] 0 100 401 ["dev"]
    ⟨"id1", none, true, some "tok", some "rt1", some 5, none, [], 0⟩
    rfl (by decide) (by decide) (by decide)

/-- C4 counterexample: two concurrent `refresh_token` executions for the
same session, interleaved read-read-call-call-write-write, issue two remote
refresh calls (not one), are simultaneously in flight at one point, and the
second write overwrites the first caller's freshly stored bundle ("a1" is
replaced by "a2"). -/
theorem refresh_concurrent_two_remote_calls :
    ((runRefresh
        ⟨[⟨"id1", none, true, some "old", some "rt1", some 5, none, [], 0⟩], [], []⟩
        ⟨0, none⟩ ⟨0, none⟩ "id1" ⟨"a1", none, some 3600⟩ ⟨"a2", none, some 3600⟩ 10 20
        [true, false, true, false, true, false]).2.2.2.1 = 2) ∧
    ((runRefresh
        ⟨[⟨"id1", none, true, some "old", some "rt1", some 5, none, [], 0⟩], [], []⟩
        ⟨0, none⟩ ⟨0, none⟩ "id1" ⟨"a1", none, some 3600⟩ ⟨"a2", none, some 3600⟩ 10 20
        [true, false, true, false, true, false]).2.2.2.2 = true) ∧
    ((runRefresh
        ⟨[⟨"id1", none, true, some "old", some "rt1", some 5, none, [], 0⟩], [], []⟩
        ⟨0, none⟩ ⟨0, none⟩ "id1" ⟨"a1", none, some 3600⟩ ⟨"a2", none, some 3600⟩ 10 20
        [true, false, true, false, true, false]).1.sessions.map
        Session.spotify_access_token = [some "a2"]) ∧
    ("a1" : String) ≠ "a2" := by
  refine ⟨rfl, rfl, rfl, by decide⟩

/-- C4 (amended): `refresh_token` has no per-session serialization: under
the natural concurrent interleaving, two callers for the same session each
issue their own remote refresh call (two calls total, simultaneously in
flight), and the second writer's bundle overwrites the first's — the final
stored access token and expiry are those of the second response. -/
theorem refresh_no_single_flight
    (st : Store) (sid : String) (r1 r2 : TokenData) (n1 n2 : Nat) (sess : Session)
    (hfind : st.sessions.find? (fun s => s._id == sid) = some sess)
    (hrt : sess.spotify_refresh_token.isSome) :
    ((runRefresh st ⟨0, none⟩ ⟨0, none⟩ sid r1 r2 n1 n2
        [true, false, true, false, true, false]).2.2.2.1 = 2) ∧
    ((runRefresh st ⟨0, none⟩ ⟨0, none⟩ sid r1 r2 n1 n2
        [true, false, true, false, true, false]).2.2.2.2 = true) ∧
    ∃ final, (runRefresh st ⟨0, none⟩ ⟨0, none⟩ sid r1 r2 n1 n2
        [true, false, true, false, true, false]).1.sessions.find?
        (fun s => s._id == sid) = some final ∧
      final.spotify_access_token = some r2.access_token ∧
      final.token_expires_at = some (n2 + r2.expires_in.getD 3600) := by
  obtain ⟨rtv, hrtv⟩ := Option.isSome_iff_exists.mp hrt
  have hrun : runRefresh st ⟨0, none⟩ ⟨0, none⟩ sid r1 r2 n1 n2
      [true, false, true, false, true, false]
      = (Store.mk (update_one (update_one st.sessions (fun s => s._id == sid) (refreshUpdate r1 n1)) (fun s => s._id == sid) (refreshUpdate r2 n2)) st.tracks st.playlists,
         ⟨3, some sess⟩, ⟨3, some sess⟩, 2, true) := by
    simp [runRefresh, refreshStep, hfind, hrtv]
  have hp1 : (fun s => s._id == sid) (refreshUpdate r1 n1 sess) = true := by
    simpa [refreshUpdate] using List.find?_some hfind
  have hfind1 : (update_one st.sessions (fun s => s._id == sid)
      (refreshUpdate r1 n1)).find? (fun s => s._id == sid)
      = some (refreshUpdate r1 n1 sess) :=
    find?_update_one _ _ _ _ hfind hp1
  have hp2 : (fun s => s._id == sid) (refreshUpdate r2 n2 (refreshUpdate r1 n1 sess))
      = true := by
    simpa [refreshUpdate] using List.find?_some hfind
  refine ⟨by rw [hrun], by rw [hrun],
    refreshUpdate r2 n2 (refreshUpdate r1 n1 sess), ?_, rfl, rfl⟩
  rw [hrun]
  exact find?_update_one _ _ _ _ hfind1 hp2

/-- C4 witness: concrete session and responses under the interleaved
schedule. -/
theorem refresh_no_single_flight_witness :
    ((runRefresh
        ⟨[⟨"id7", none, true, some "old", some "rt1", some 5, none, [], 0⟩], [], []⟩
        ⟨0, none⟩ ⟨0, none⟩ "id7" ⟨"b1", none, some 60⟩ ⟨"b2", none, none⟩ 10 20
        [true, false, true, false, true, false]).2.2.2.1 = 2) ∧
    ((runRefresh
        ⟨[⟨"id7", none, true, some "old", some "rt1", some 5, none, [], 0⟩], [], []⟩
        ⟨0, none⟩ ⟨0, none⟩ "id7" ⟨"b1", none, some 60⟩ ⟨"b2", none, none⟩ 10 20
        [true, false, true, false, true, false]).2.2.2.2 = true) ∧
    ∃ final, (runRefresh
        ⟨[⟨"id7", none, true, some "old", some "rt1", some 5, none, [], 0⟩], [], []⟩
        ⟨0, none⟩ ⟨0, none⟩ "id7" ⟨"b1", none, some 60⟩ ⟨"b2", none, none⟩ 10 20
        [true, false, true, false, true, false]).1.sessions.find?
        (fun s => s._id == "id7") = some final ∧
      final.spotify_access_token = some ("b2" : String) ∧
      final.token_expires_at = some (20 + (none : Option Nat).getD 3600) :=
  refresh_no_single_flight
    ⟨[⟨"id7", none, true, some "old", some "rt1", some 5, none, [], 0⟩], [], []⟩
    "id7" ⟨"b1", none, some 60⟩ ⟨"b2", none, none⟩ 10 20
    ⟨"id7", none, true, some "old", some "rt1", some 5, none, [], 0⟩ rfl (by decide)

/-- C6: when the playlist fetch yields no tracks (empty list or unreachable
playlist), `get_next_track` returns the no-tracks error, inserts nothing
into the `tracks` collection, and every session's `tracks_played` is exactly
as before. -/
theorem get_next_track_empty_playlist
    (st : Store) (sid pid : String) (fetched : Option (List Track)) (choice now : Nat)
    (hfound : (st.sessions.find? (fun s => s._id == sid)).isSome)
    (hempty : fetched = none ∨ fetched = some []) :
    (get_next_track st sid pid fetched choice now).1 = NextTrackResult.errNoTracks ∧
    (get_next_track st sid pid fetched choice now).2.tracks = st.tracks ∧
    (get_next_track st sid pid fetched choice now).2.sessions.map Session.tracks_played
      = st.sessions.map Session.tracks_played := by
  obtain ⟨sess, hfind⟩ := Option.isSome_iff_exists.mp hfound
  have hmap : (update_one st.sessions (fun s => s._id == sid) (setTheme pid)).map
      Session.tracks_played = st.sessions.map Session.tracks_played :=
    map_update_one _ _ _ _ (fun s => rfl)
  rcases hempty with rfl | rfl
  · exact ⟨by simp [get_next_track, hfind], by simp [get_next_track, hfind],
      by simp only [get_next_track, hfind]; exact hmap⟩
  · exact ⟨by simp [get_next_track, hfind], by simp [get_next_track, hfind],
      by simp only [get_next_track, hfind]; exact hmap⟩

/-- C6 witness: a session with prior history ["X"] and an empty fetch. -/
theorem get_next_track_empty_playlist_witness :
    (get_next_track
        ⟨[⟨"id1", none, true, some "tok", some "rt1", some 5, none, ["X"], 0⟩], [], []⟩
        "id1" "pl" (some []) 4 100).1 = NextTrackResult.errNoTracks ∧
    (get_next_track
        ⟨[⟨"id1", none, true, some "tok", some "rt1", some 5, none, ["X"], 0⟩], [], []⟩
        "id1" "pl" (some []) 4 100).2.tracks = [] ∧
    (get_next_track
        ⟨[⟨"id1", none, true, some "tok", some "rt1", some 5, none, ["X"], 0⟩], [], []⟩
        "id1" "pl" (some []) 4 100).2.sessions.map Session.tracks_played
      = [⟨"id1", none, true, some "tok", some "rt1", some 5, none, ["X"], 0⟩].map
          Session.tracks_played :=
  get_next_track_empty_playlist
    ⟨[⟨"id1", none, true, some "tok", some "rt1", some 5, none, ["X"], 0⟩], [], []⟩
    "id1" "pl" (some []) 4 100 (by decide) (Or.inr rfl)

/-- C7: on a non-empty fetched listing `t :: ts`, `get_next_track` returns a
track descriptor built from a member of that listing, and the session's
`tracks_played` afterwards is its prior contents with the chosen track's id
appended at the end. -/
theorem get_next_track_pick_member_append
    (st : Store) (sid pid : String) (t : Track) (ts : List Track) (choice now : Nat)
    (sess : Session)
    (hfind : st.sessions.find? (fun s => s._id == sid) = some sess) :
    ∃ tk ∈ t :: ts, ∃ sess',
      (get_next_track st sid pid (some (t :: ts)) choice now).1
        = NextTrackResult.ok ⟨tk.id, tk.name, tk.artist, tk.album_name, tk.release_year,
            pid, now, sid, now + 2 * 3600⟩ ∧
      (get_next_track st sid pid (some (t :: ts)) choice now).2.sessions.find?
          (fun s => s._id == sid) = some sess' ∧
      sess'.tracks_played = sess.tracks_played ++ [tk.id] := by
  refine ⟨(t :: ts).getD (choice % (t :: ts).length) t,
    cons_getD_mem t ts (choice % (t :: ts).length), ?_⟩
  have hpres1 : (fun s => s._id == sid) (setTheme pid sess) = true := by
    simpa [setTheme] using List.find?_some hfind
  have hfind1 : (update_one st.sessions (fun s => s._id == sid) (setTheme pid)).find?
      (fun s => s._id == sid) = some (setTheme pid sess) :=
    find?_update_one _ _ _ _ hfind hpres1
  have hpres2 : (fun s => s._id == sid)
      (pushTrack ((t :: ts).getD (choice % (t :: ts).length) t).id (setTheme pid sess))
      = true := by
    simpa [pushTrack, setTheme] using List.find?_some hfind
  refine ⟨pushTrack ((t :: ts).getD (choice % (t :: ts).length) t).id (setTheme pid sess),
    ?_, ?_, ?_⟩
  · simp [get_next_track, hfind, get_original_release_year]
  · simp only [get_next_track, hfind]
    exact find?_update_one _ _ _ _ hfind1 hpres2
  · simp [pushTrack, setTheme]

/-- C7 witness: listing [A, B] with prior history ["X"]; the pick lands on B
and "B" is appended. -/
theorem get_next_track_pick_member_append_witness :
    ∃ tk ∈ [(⟨"A", "a", "ar", "al", 1999⟩ : Track), ⟨"B", "b", "br", "bl", 2001⟩], ∃ sess',
      (get_next_track
          ⟨[⟨"id1", none, true, some "tok", some "rt1", some 5, none, ["X"], 0⟩], [], []⟩
          "id1" "pl" (some [⟨"A", "a", "ar", "al", 1999⟩, ⟨"B", "b", "br", "bl", 2001⟩])
          3 100).1
        = NextTrackResult.ok ⟨tk.id, tk.name, tk.artist, tk.album_name, tk.release_year,
            "pl", 100, "id1", 100 + 2 * 3600⟩ ∧
      (get_next_track
          ⟨[⟨"id1", none, true, some "tok", some "rt1", some 5, none, ["X"], 0⟩], [], []⟩
          "id1" "pl" (some [⟨"A", "a", "ar", "al", 1999⟩, ⟨"B", "b", "br", "bl", 2001⟩])
          3 100).2.sessions.find? (fun s => s._id == "id1") = some sess' ∧
      sess'.tracks_played = ["X"] ++ [tk.id] :=
  get_next_track_pick_member_append
    ⟨[⟨"id1", none, true, some "tok", some "rt1", some 5, none, ["X"], 0⟩], [], []⟩
    "id1" "pl" ⟨"A", "a", "ar", "al", 1999⟩ [⟨"B", "b", "br", "bl", 2001⟩] 3 100
    ⟨"id1", none, true, some "tok", some "rt1", some 5, none, ["X"], 0⟩ rfl

/-- C8: `reset_game` on an existing session succeeds, leaves the session
with empty `tracks_played` and null `playlist_theme`, deletes every
`TrackRecord` owned by the session, and is idempotent: a second reset
returns the identical success result and final store. -/
theorem reset_game_clears_and_idempotent
    (st : Store) (sid : String)
    (hfound : (st.sessions.find? (fun s => s._id == sid)).isSome) :
    (reset_game st sid).1 = ResetResult.okReset ∧
    (∃ sess', (reset_game st sid).2.sessions.find? (fun s => s._id == sid) = some sess' ∧
      sess'.tracks_played = [] ∧ sess'.playlist_theme = none) ∧
    (∀ r ∈ (reset_game st sid).2.tracks, r.session_id ≠ sid) ∧
    reset_game (reset_game st sid).2 sid = reset_game st sid := by
  obtain ⟨sess, hfind⟩ := Option.isSome_iff_exists.mp hfound
  have hpres : (fun s => s._id == sid) (clearSession sess) = true := by
    simpa [clearSession] using List.find?_some hfind
  have hfind1 : (update_one st.sessions (fun s => s._id == sid) clearSession).find?
      (fun s => s._id == sid) = some (clearSession sess) :=
    find?_update_one _ _ _ _ hfind hpres
  have hrun : reset_game st sid = (ResetResult.okReset,
      Store.mk (update_one st.sessions (fun s => s._id == sid) clearSession)
        (st.tracks.filter (fun t => !(t.session_id == sid))) st.playlists) := by
    simp [reset_game, hfind]
  refine ⟨by rw [hrun], ⟨clearSession sess, by rw [hrun]; exact hfind1, rfl, rfl⟩, ?_, ?_⟩
  · rw [hrun]
    intro r hr
    have hmem := (List.mem_filter.mp hr).2
    simpa using hmem
  · rw [hrun]
    simp only [reset_game, hfind1]
    rw [update_one_idem st.sessions (fun s => s._id == sid) clearSession
          (fun s => rfl) (fun s => rfl), List.filter_filter]
    simp

/-- C8 witness: session with history and an owned `TrackRecord`; resetting
twice yields the same cleared state with no error. -/
theorem reset_game_clears_and_idempotent_witness :
    (reset_game
        ⟨[⟨"id1", none, true, some "tok", some "rt1", some 5, some "pl", ["A"], 0⟩],
         [⟨"A", "a", "ar", "al", 1999, "pl", 50, "id1", 7250⟩], []⟩
        "id1").1 = ResetResult.okReset ∧
    (∃ sess', (reset_game
        ⟨[⟨"id1", none, true, some "tok", some "rt1", some 5, some "pl", ["A"], 0⟩],
         [⟨"A", "a", "ar", "al", 1999, "pl", 50, "id1", 7250⟩], []⟩
        "id1").2.sessions.find? (fun s => s._id == "id1") = some sess' ∧
      sess'.tracks_played = [] ∧ sess'.playlist_theme = none) ∧
    (∀ r ∈ (reset_game
        ⟨[⟨"id1", none, true, some "tok", some "rt1", some 5, some "pl", ["A"], 0⟩],
         [⟨"A", "a", "ar", "al", 1999, "pl", 50, "id1", 7250⟩], []⟩
        "id1").2.tracks, r.session_id ≠ "id1") ∧
    reset_game (reset_game
        ⟨[⟨"id1", none, true, some "tok", some "rt1", some 5, some "pl", ["A"], 0⟩],
         [⟨"A", "a", "ar", "al", 1999, "pl", 50, "id1", 7250⟩], []⟩
        "id1").2 "id1"
      = reset_game
        ⟨[⟨"id1", none, true, some "tok", some "rt1", some 5, some "pl", ["A"], 0⟩],
         [⟨"A", "a", "ar", "al", 1999, "pl", 50, "id1", 7250⟩], []⟩
        "id1" :=
  reset_game_clears_and_idempotent
    ⟨[⟨"id1", none, true, some "tok", some "rt1", some 5, some "pl", ["A"], 0⟩],
     [⟨"A", "a", "ar", "al", 1999, "pl", 50, "id1", 7250⟩], []⟩
    "id1" (by decide)

/-- C9 counterexample: a well-formed playlist URL is parsed and the metadata
fetch succeeds, `add_playlist` returns the id/name/icon triple — yet the
`playlists` collection is still empty afterwards: no `PlaylistEntry` is
stored. -/
theorem add_playlist_stores_no_entry :
    ((add_playlist
        ⟨[⟨"id1", none, true, some "tok", some "rt1", some 5, none, [], 0⟩], [], []⟩
        (some "id1") (some "https://open.spotify.com/playlist/abc")
        (some ("Party", "jukebox"))).1
      = AddPlaylistResult.ok "abc" "Party" "jukebox") ∧
    ((add_playlist
        ⟨[⟨"id1", none, true, some "tok", some "rt1", some 5, none, [], 0⟩], [], []⟩
        (some "id1") (some "https://open.spotify.com/playlist/abc")
        (some ("Party", "jukebox"))).2.playlists
      = []) := by
  refine ⟨by decide, by decide⟩

/-- C9 (amended, spec-modelled helpers): `add_playlist` rejects a malformed
playlist URL and, on a well-formed URL with a successful metadata fetch,
returns the parsed id with the fetched name and icon — but it never writes a
`PlaylistEntry`: the store is returned unchanged on every path. -/
theorem add_playlist_parse_fetch_no_store
    (st : Store) (sid u : String) (remote : Option (String × String)) (sess : Session)
    (hfind : st.sessions.find? (fun s => s._id == sid) = some sess) :
    (∀ sid2 u2 remote2, (add_playlist st sid2 u2 remote2).2 = st) ∧
    (parse_playlist_url u = none →
      (add_playlist st (some sid) (some u) remote).1 = AddPlaylistResult.errInvalidUrl) ∧
    (∀ pid name icon, parse_playlist_url u = some pid → remote = some (name, icon) →
      (add_playlist st (some sid) (some u) remote).1
        = AddPlaylistResult.ok pid name icon) := by
  refine ⟨?_, ?_, ?_⟩
  · intro sid2 u2 remote2
    unfold add_playlist
    repeat' split
    all_goals rfl
  · intro hp
    simp [add_playlist, hfind, hp]
  · intro pid name icon hp hr
    subst hr
    simp [add_playlist, hfind, hp, get_playlist_metadata]

/-- C9 witness: well-formed URL parsed to "abc", metadata fetched, triple
returned, store unchanged. -/
theorem add_playlist_parse_fetch_no_store_witness :
    ((add_playlist
        ⟨[⟨"id1", none, true, some "tok", some "rt1", some 5, none, [], 0⟩], [], []⟩
        (some "other") none none).2
      = ⟨[⟨"id1", none, true, some "tok", some "rt1", some 5, none, [], 0⟩], [], []⟩) ∧
    ((add_playlist
        ⟨[⟨"id1", none, true, some "tok", some "rt1", some 5, none, [], 0⟩], [], []⟩
        (some "id1") (some "https://open.spotify.com/playlist/abc")
        (some ("Party", "jukebox"))).1
      = AddPlaylistResult.ok "abc" "Party" "jukebox") :=
  ⟨(add_playlist_parse_fetch_no_store
      ⟨[⟨"id1", none, true, some "tok", some "rt1", some 5, none, [], 0⟩], [], []⟩
      "id1" "https://open.spotify.com/playlist/abc" (some ("Party", "jukebox"))
      ⟨"id1", none, true, some "tok", some "rt1", some 5, none, [], 0⟩ rfl).1
      (some "other") none none,
   (add_playlist_parse_fetch_no_store
      ⟨[⟨"id1", none, true, some "tok", some "rt1", some 5, none, [], 0⟩], [], []⟩
      "id1" "https://open.spotify.com/playlist/abc" (some ("Party", "jukebox"))
      ⟨"id1", none, true, some "tok", some "rt1", some 5, none, [], 0⟩ rfl).2.2
      "abc" "Party" "jukebox" (by decide) rfl⟩

/-- C10: both `get_next_track` and `play_next_song` set the session's
`playlist_theme` to the requested playlist id before fetching the listing,
so the theme is changed even when the call then fails — with the no-tracks
error on an empty fetch, or with a playback error — and no track is
recorded: the `tracks` collection and the session's `tracks_played` are
untouched on those failing paths. -/
theorem playlist_theme_set_before_fetch
    (st : Store) (sid pid body : String) (fetched : Option (List Track))
    (choice now ps : Nat) (devices : List String) (sess : Session)
    (hfind : st.sessions.find? (fun s => s._id == sid) = some sess)
    (hempty : fetched = none ∨ fetched = some [])
    (hps : (ps == 204) = false) :
    ((get_next_track st sid pid fetched choice now).1 = NextTrackResult.errNoTracks ∧
     (∃ s1, (get_next_track st sid pid fetched choice now).2.sessions.find?
        (fun s => s._id == sid) = some s1 ∧ s1.playlist_theme = some pid ∧
        s1.tracks_played = sess.tracks_played)) ∧
    (∀ fetched2,
      (∀ r, (play_next_song st sid pid fetched2 choice devices ps body now).1
        ≠ PlayNextResult.ok r) ∧
      (play_next_song st sid pid fetched2 choice devices ps body now).2.1.tracks
        = st.tracks ∧
      (∃ s2, (play_next_song st sid pid fetched2 choice devices ps body now).2.1.sessions.find?
        (fun s => s._id == sid) = some s2 ∧ s2.playlist_theme = some pid ∧
        s2.tracks_played = sess.tracks_played)) := by
  have hpres : (fun s => s._id == sid) (setTheme pid sess) = true := by
    simpa [setTheme] using List.find?_some hfind
  have hfind1 : (update_one st.sessions (fun s => s._id == sid) (setTheme pid)).find?
      (fun s => s._id == sid) = some (setTheme pid sess) :=
    find?_update_one _ _ _ _ hfind hpres
  have hplayfalse : ∀ tid, (play_track
      (Store.mk (update_one st.sessions (fun s => s._id == sid) (setTheme pid))
        st.tracks st.playlists) tid sid devices ps body).1 = false := by
    intro tid
    cases h1 : (setTheme pid sess).spotify_access_token.isNone <;>
      cases h2 : devices.isEmpty <;>
        simp [play_track, hfind1, hps, h1, h2]
  constructor
  · rcases hempty with rfl | rfl
    · exact ⟨by simp [get_next_track, hfind],
        ⟨setTheme pid sess, by simp only [get_next_track, hfind]; exact hfind1, rfl, rfl⟩⟩
    · exact ⟨by simp [get_next_track, hfind],
        ⟨setTheme pid sess, by simp only [get_next_track, hfind]; exact hfind1, rfl, rfl⟩⟩
  · intro fetched2
    match fetched2 with
    | none =>
      exact ⟨by simp [play_next_song, hfind],
        by simp [play_next_song, hfind],
        ⟨setTheme pid sess, by simp only [play_next_song, hfind]; exact hfind1, rfl, rfl⟩⟩
    | some [] =>
      exact ⟨by simp [play_next_song, hfind],
        by simp [play_next_song, hfind],
        ⟨setTheme pid sess, by simp only [play_next_song, hfind]; exact hfind1, rfl, rfl⟩⟩
    | some (t :: ts) =>
      refine ⟨?_, ?_, setTheme pid sess, ?_, rfl, rfl⟩
      · intro r
        simp [play_next_song, hfind, hplayfalse]
      · simp [play_next_song, hfind, hplayfalse]
      · simp only [play_next_song, hfind, hplayfalse, Bool.false_eq_true, if_false]
        exact hfind1

/-- C10 witness: empty fetch for `get_next_track`; empty fetch and a
one-track fetch with a 401 play response for `play_next_song`; the theme is
set to "newpl" in each case. -/
theorem playlist_theme_set_before_fetch_witness :
    ((get_next_track
        ⟨[⟨"id1", none, true, some "tok", some "rt1", some 5, some "oldpl", ["X"], 0⟩], [], []⟩
        "id1" "newpl" (some []) 0 100).1 = NextTrackResult.errNoTracks ∧
     (∃ s1, (get_next_track
        ⟨[⟨"id1", none, true, some "tok", some "rt1", some 5, some "oldpl", ["X"], 0⟩], [], []⟩
        "id1" "newpl" (some []) 0 100).2.sessions.find?
        (fun s => s._id == "id1") = some s1 ∧ s1.playlist_theme = some "newpl" ∧
        s1.tracks_played = ["X"])) ∧
    (∀ fetched2,
      (∀ r, (play_next_song
          ⟨[⟨"id1", none, true, some "tok", some "rt1", some 5, some "oldpl", ["X"], 0⟩], [], []⟩
          "id1" "newpl" fetched2 0 ["dev"] 401 "NoAuth" 100).1
        ≠ PlayNextResult.ok r) ∧
      (play_next_song
          ⟨[⟨"id1", none, true, some "tok", some "rt1", some 5, some "oldpl", ["X"], 0⟩], [], []⟩
          "id1" "newpl" fetched2 0 ["dev"] 401 "NoAuth" 100).2.1.tracks = [] ∧
      (∃ s2, (play_next_song
          ⟨[⟨"id1", none, true, some "tok", some "rt1", some 5, some "oldpl", ["X"], 0⟩], [], []⟩
          "id1" "newpl" fetched2 0 ["dev"] 401 "NoAuth" 100).2.1.sessions.find?
          (fun s => s._id == "id1") = some s2 ∧ s2.playlist_theme = some "newpl" ∧
          s2.tracks_played = ["X"])) :=
  playlist_theme_set_before_fetch
    ⟨[⟨"id1", none, true, some "tok", some "rt1", some 5, some "oldpl", ["X"], 0⟩], [], []⟩
    "id1" "newpl" "NoAuth" (some []) 0 100 401 ["dev"]
    ⟨"id1", none, true, some "tok", some "rt1", some 5, some "oldpl", ["X"], 0⟩
    rfl (Or.inr rfl) (by decide)
